import Mathlib

/-!
A shallow embedding of `src/models/disproportionality.py`:
disproportionality analysis (ROR/PRR) for pharmacovigilance.

Python floats are idealised as exact arithmetic: quantities that are
always rational in exact arithmetic (`ror`, `prr`, `chi2`) live in an
explicit NaN-or-rational type `Fl`; the confidence bounds, which involve
`exp`, `log` and `sqrt`, live in `Option ℝ` with `none` playing NaN.
A Python exception (`ZeroDivisionError`) is an `Except.error`.
-/

/-- A float value that is either NaN or an exact rational. -/
inductive Fl where
  | nan : Fl
  | val : ℚ → Fl
deriving DecidableEq

/-- Python `x > t` on a possibly-NaN float: a NaN comparison is `False`. -/
def Fl.gtQ : Fl → ℚ → Prop
  | .nan, _ => False
  | .val v, t => t < v

/-- Python `x > t` for a real-valued possibly-NaN float (`none` plays NaN). -/
def optGtR : Option ℝ → ℝ → Prop
  | none, _ => False
  | some v, t => t < v

/-- Result triple of `compute_ror`: the ROR value and the two CI bounds. -/
structure RorResult where
  ror : Fl
  ciLow : Option ℝ
  ciHigh : Option ℝ

/-- Python `compute_ror` (disproportionality.py lines 8-43).  With
`b == 0` or `c == 0` it returns three NaNs; with `a == 0` it returns
three exact zeroes; otherwise it computes `ror = (a*d)/(b*c)` and then
evaluates `1/a + 1/b + 1/c + 1/d`, which in Python raises
`ZeroDivisionError` when any cell is zero (only `d == 0` is reachable
here), before taking `sqrt`, `log` and `exp`. -/
noncomputable def compute_ror (a b c d : ℕ) : Except Unit RorResult :=
  if b = 0 ∨ c = 0 then
    .ok ⟨.nan, none, none⟩
  else if a = 0 then
    .ok ⟨.val 0, some 0, some 0⟩
  else if a = 0 ∨ b = 0 ∨ c = 0 ∨ d = 0 then
    .error ()
  else
    .ok ⟨if 0 < b * c then Fl.val ((a * d : ℚ) / (b * c)) else Fl.nan,
      some (Real.exp (Real.log ((a * d : ℝ) / (b * c)) -
        1.96 * Real.sqrt (1 / (a : ℝ) + 1 / (b : ℝ) + 1 / (c : ℝ) + 1 / (d : ℝ)))),
      some (Real.exp (Real.log ((a * d : ℝ) / (b * c)) +
        1.96 * Real.sqrt (1 / (a : ℝ) + 1 / (b : ℝ) + 1 / (c : ℝ) + 1 / (d : ℝ))))⟩

/-- Python `compute_prr` (disproportionality.py lines 46-89).  With
`(a+b) == 0` or `(c+d) == 0` it returns two NaNs; with `a == 0` two
exact zeroes; otherwise `prr = (a/(a+b)) / (c/(c+d))` raises
`ZeroDivisionError` when `c == 0`, and the chi-square sum divides by
`expected_b = (a+b)*(b+d)/n`, which raises when `b + d == 0`; in all
remaining cases it returns the PRR and chi-square values. -/
def compute_prr (a b c d : ℕ) : Except Unit (Fl × Fl) :=
  if a + b = 0 ∨ c + d = 0 then
    .ok (.nan, .nan)
  else if a = 0 then
    .ok (.val 0, .val 0)
  else if c = 0 then
    .error ()
  else if b + d = 0 then
    .error ()
  else
    let prr : ℚ := ((a : ℚ) / ((a : ℚ) + (b : ℚ))) / ((c : ℚ) / ((c : ℚ) + (d : ℚ)))
    let n : ℚ := (a : ℚ) + (b : ℚ) + (c : ℚ) + (d : ℚ)
    let ea : ℚ := ((a : ℚ) + (b : ℚ)) * ((a : ℚ) + (c : ℚ)) / n
    let eb : ℚ := ((a : ℚ) + (b : ℚ)) * ((b : ℚ) + (d : ℚ)) / n
    let ec : ℚ := ((c : ℚ) + (d : ℚ)) * ((a : ℚ) + (c : ℚ)) / n
    let ed : ℚ := ((c : ℚ) + (d : ℚ)) * ((b : ℚ) + (d : ℚ)) / n
    let chi2 : ℚ := ((a : ℚ) - ea) ^ 2 / ea + ((b : ℚ) - eb) ^ 2 / eb +
      ((c : ℚ) - ec) ^ 2 / ec + ((d : ℚ) - ed) ^ 2 / ed
    .ok (.val prr, .val chi2)

/-- One record of the analysed table: a drug cell, an adverse-event cell
and an optional stratification cell; `none` is a missing (NaN) cell. -/
structure Record where
  drug : Option String
  event : Option String
  stratum : Option String
deriving DecidableEq

/-- Python `build_contingency_table` (disproportionality.py lines
92-124).  Column selectors become field accessors; pandas `==` on a NaN
cell is `False` and `!=` is `True`, with the explicit `notna()`
conjuncts excluding missing cells from `b`, `c` and `d`. -/
def build_contingency_table (df : List Record) (drug_value event_value : String) :
    ℕ × ℕ × ℕ × ℕ :=
  let a := df.countP fun r => decide (r.drug = some drug_value ∧ r.event = some event_value)
  let b := df.countP fun r =>
    decide (r.drug = some drug_value ∧ r.event ≠ some event_value ∧ r.event.isSome = true)
  let c := df.countP fun r =>
    decide (r.drug ≠ some drug_value ∧ r.drug.isSome = true ∧ r.event = some event_value)
  let d := df.countP fun r =>
    decide (r.drug ≠ some drug_value ∧ r.drug.isSome = true ∧
      r.event ≠ some event_value ∧ r.event.isSome = true)
  (a, b, c, d)

/-- One result row of the analysis, for one (drug, event) pair. -/
structure Row where
  drug : String
  event : String
  a : ℕ
  b : ℕ
  c : ℕ
  d : ℕ
  ror : Fl
  ror_ci_low : Option ℝ
  ror_ci_high : Option ℝ
  prr : Fl
  chi2 : Fl
  is_signal : Prop

/-- pandas sort of the ror column with ascending set to False: descending
on values, NaN placed last.  `rorLe x y` says `x` may come before `y`. -/
def rorLe : Fl → Fl → Bool
  | _, .nan => true
  | .nan, .val _ => false
  | .val u, .val v => decide (v ≤ u)

/-- Row comparison used for the final sort. -/
def rowLe (r s : Row) : Bool := rorLe r.ror s.ror

/-- Body of the inner loop of `run_disproportionality_analysis` for one
(drug, event) pair: `ok none` when the pair is filtered out by the
minimum-count checks, otherwise the assembled result row with the
`is_signal` decision of lines 179-181. -/
noncomputable def pairStep (df : List Record) (drug event : String)
    (min_count min_drug_reports : ℕ) : Except Unit (Option Row) :=
  if (build_contingency_table df drug event).1 < min_count then .ok none
  else if (build_contingency_table df drug event).1 +
      (build_contingency_table df drug event).2.1 < min_drug_reports then .ok none
  else do
    let rr ← compute_ror (build_contingency_table df drug event).1
      (build_contingency_table df drug event).2.1
      (build_contingency_table df drug event).2.2.1
      (build_contingency_table df drug event).2.2.2
    let pc ← compute_prr (build_contingency_table df drug event).1
      (build_contingency_table df drug event).2.1
      (build_contingency_table df drug event).2.2.1
      (build_contingency_table df drug event).2.2.2
    .ok (some ⟨drug, event, (build_contingency_table df drug event).1,
      (build_contingency_table df drug event).2.1,
      (build_contingency_table df drug event).2.2.1,
      (build_contingency_table df drug event).2.2.2,
      rr.ror, rr.ciLow, rr.ciHigh, pc.1, pc.2,
      (Fl.gtQ rr.ror 2 ∧ optGtR rr.ciLow 1) ∨
        (Fl.gtQ pc.1 2 ∧ Fl.gtQ pc.2 4 ∧
          3 ≤ (build_contingency_table df drug event).1)⟩)

/-- The inner (event) loop of `run_disproportionality_analysis`. -/
noncomputable def eventsLoop (df : List Record) (drug : String) (events : List String)
    (min_count min_drug_reports : ℕ) : Except Unit (List Row) :=
  match events with
  | [] => .ok []
  | e :: rest => do
      let r ← pairStep df drug e min_count min_drug_reports
      let rs ← eventsLoop df drug rest min_count min_drug_reports
      .ok (r.toList ++ rs)

/-- The outer (drug) loop of `run_disproportionality_analysis`: a drug
with fewer than `min_drug_reports` records is skipped before any event
is evaluated. -/
noncomputable def drugsLoop (df : List Record) (drugs events : List String)
    (min_count min_drug_reports : ℕ) : Except Unit (List Row) :=
  match drugs with
  | [] => .ok []
  | dr :: rest =>
      if df.countP (fun r => decide (r.drug = some dr)) < min_drug_reports then
        drugsLoop df rest events min_count min_drug_reports
      else do
        let rs ← eventsLoop df dr events min_count min_drug_reports
        let rest2 ← drugsLoop df rest events min_count min_drug_reports
        .ok (rs ++ rest2)

/-- Python `run_disproportionality_analysis` (disproportionality.py
lines 127-204): the pair loops followed by the descending-ROR sort. -/
noncomputable def run_disproportionality_analysis (df : List Record)
    (drug_list event_list : List String) (min_count min_drug_reports : ℕ) :
    Except Unit (List Row) := do
  let rows ← drugsLoop df drug_list event_list min_count min_drug_reports
  .ok (rows.mergeSort rowLe)

/-- Python default parameters `min_count=5`, `min_drug_reports=10`. -/
noncomputable def run_disproportionality_analysis_default (df : List Record)
    (drug_list event_list : List String) : Except Unit (List Row) :=
  run_disproportionality_analysis df drug_list event_list 5 10

/-- pandas `Series.unique()`: distinct values in order of first appearance. -/
def uniqueFirst : List String → List String
  | [] => []
  | s :: l => s :: uniqueFirst (l.filter fun x => decide (x ≠ s))
termination_by l => l.length
decreasing_by
  simp only [List.length_cons]
  exact Nat.lt_succ_of_le (List.length_filter_le _ _)

/-- The record subset of one stratum: `df[df[stratify_col] == stratum]`. -/
def stratumDf (df : List Record) (s : String) : List Record :=
  df.filter fun r => decide (r.stratum = some s)

/-- The stratum loop of `run_stratified_analysis`: the subset of each stratum
is analysed independently and a non-empty result block is tagged with
the stratum value; the blocks are concatenated without a re-sort. -/
noncomputable def strataLoop (df : List Record) (drug_list event_list : List String)
    (min_count min_drug_reports : ℕ) : List String → Except Unit (List (Row × String))
  | [] => .ok []
  | s :: rest => do
      let res ← run_disproportionality_analysis (stratumDf df s) drug_list event_list
        min_count min_drug_reports
      let rest2 ← strataLoop df drug_list event_list min_count min_drug_reports rest
      if 0 < res.length then
        .ok (res.map (fun row => (row, s)) ++ rest2)
      else
        .ok rest2

/-- Python `run_stratified_analysis` (disproportionality.py lines
207-255): the strata are the distinct non-missing values of the
stratification column in order of first appearance. -/
noncomputable def run_stratified_analysis (df : List Record)
    (drug_list event_list : List String) (min_count min_drug_reports : ℕ) :
    Except Unit (List (Row × String)) :=
  strataLoop df drug_list event_list min_count min_drug_reports
    (uniqueFirst (df.filterMap Record.stratum))

/-- Python default parameters `min_count=3`, `min_drug_reports=5`. -/
noncomputable def run_stratified_analysis_default (df : List Record)
    (drug_list event_list : List String) : Except Unit (List (Row × String)) :=
  run_stratified_analysis df drug_list event_list 3 5

/-- Sortedness of a ror column: descending on values with NaN last,
the order produced by pandas sort_values(ascending=False). -/
def rorDescending (l : List Fl) : Prop := l.Pairwise (fun x y => rorLe x y = true)

/-- A one-record example table. -/
def dfOne : List Record := [⟨some "A", some "X", none⟩]

/-- The row produced for dfOne with both thresholds 1. -/
def rowOne : Row := ⟨"A", "X", 1, 0, 0, 0, .nan, none, none, .nan, .nan,
  (Fl.gtQ .nan 2 ∧ optGtR none 1) ∨ (Fl.gtQ .nan 2 ∧ Fl.gtQ .nan 4 ∧ 3 ≤ 1)⟩

/-- Ten identical records: drug A with event X. -/
def dfTen : List Record := List.replicate 10 ⟨some "A", some "X", none⟩

/-- The (NaN-ror) row produced for dfTen at the default thresholds. -/
def rowTen : Row := ⟨"A", "X", 10, 0, 0, 0, .nan, none, none, .nan, .nan,
  (Fl.gtQ .nan 2 ∧ optGtR none 1) ∨ (Fl.gtQ .nan 2 ∧ Fl.gtQ .nan 4 ∧ 3 ≤ 10)⟩

/-- A two-strata table: stratum s1 yields a zero-ROR pair, stratum s2 a
ROR of 4, so the concatenated stratified output is not sorted. -/
def dfStrat : List Record :=
  [⟨some "A", some "Y", some "s1"⟩, ⟨some "B", some "X", some "s1"⟩,
   ⟨some "A", some "X", some "s2"⟩, ⟨some "A", some "X", some "s2"⟩,
   ⟨some "A", some "Y", some "s2"⟩, ⟨some "B", some "X", some "s2"⟩,
   ⟨some "B", some "Y", some "s2"⟩, ⟨some "B", some "Y", some "s2"⟩]

/-- The stratum-s1 row of the stratified counterexample (ROR zero). -/
def rowS1 : Row := ⟨"A", "X", 0, 1, 1, 0, .val 0, some 0, some 0, .val 0, .val 0,
  (Fl.gtQ (.val 0) 2 ∧ optGtR (some 0) 1) ∨
    (Fl.gtQ (.val 0) 2 ∧ Fl.gtQ (.val 0) 4 ∧ 3 ≤ 0)⟩

/-- The stratum-s2 row of the stratified counterexample (ROR four). -/
noncomputable def rowS2 : Row := ⟨"A", "X", 2, 1, 1, 2,
  if 0 < (1 : ℕ) * (1 : ℕ) then Fl.val (((2 : ℕ) * (2 : ℕ) : ℚ) / ((1 : ℕ) * (1 : ℕ))) else Fl.nan,
  some (Real.exp (Real.log (((2 : ℕ) * (2 : ℕ) : ℝ) / ((1 : ℕ) * (1 : ℕ))) - 1.96 * Real.sqrt (1 / ((2 : ℕ) : ℝ) + 1 / ((1 : ℕ) : ℝ) + 1 / ((1 : ℕ) : ℝ) + 1 / ((2 : ℕ) : ℝ)))),
  some (Real.exp (Real.log (((2 : ℕ) * (2 : ℕ) : ℝ) / ((1 : ℕ) * (1 : ℕ))) + 1.96 * Real.sqrt (1 / ((2 : ℕ) : ℝ) + 1 / ((1 : ℕ) : ℝ) + 1 / ((1 : ℕ) : ℝ) + 1 / ((2 : ℕ) : ℝ)))),
  Fl.val ((((2 : ℕ) : ℚ) / (((2 : ℕ) : ℚ) + ((1 : ℕ) : ℚ))) / (((1 : ℕ) : ℚ) / (((1 : ℕ) : ℚ) + ((2 : ℕ) : ℚ)))),
  Fl.val ((((2 : ℕ) : ℚ) - (((2 : ℕ) : ℚ) + ((1 : ℕ) : ℚ)) * (((2 : ℕ) : ℚ) + ((1 : ℕ) : ℚ)) / (((2 : ℕ) : ℚ) + ((1 : ℕ) : ℚ) + ((1 : ℕ) : ℚ) + ((2 : ℕ) : ℚ))) ^ 2 / ((((2 : ℕ) : ℚ) + ((1 : ℕ) : ℚ)) * (((2 : ℕ) : ℚ) + ((1 : ℕ) : ℚ)) / (((2 : ℕ) : ℚ) + ((1 : ℕ) : ℚ) + ((1 : ℕ) : ℚ) + ((2 : ℕ) : ℚ))) + (((1 : ℕ) : ℚ) - (((2 : ℕ) : ℚ) + ((1 : ℕ) : ℚ)) * (((1 : ℕ) : ℚ) + ((2 : ℕ) : ℚ)) / (((2 : ℕ) : ℚ) + ((1 : ℕ) : ℚ) + ((1 : ℕ) : ℚ) + ((2 : ℕ) : ℚ))) ^ 2 / ((((2 : ℕ) : ℚ) + ((1 : ℕ) : ℚ)) * (((1 : ℕ) : ℚ) + ((2 : ℕ) : ℚ)) / (((2 : ℕ) : ℚ) + ((1 : ℕ) : ℚ) + ((1 : ℕ) : ℚ) + ((2 : ℕ) : ℚ))) + (((1 : ℕ) : ℚ) - (((1 : ℕ) : ℚ) + ((2 : ℕ) : ℚ)) * (((2 : ℕ) : ℚ) + ((1 : ℕ) : ℚ)) / (((2 : ℕ) : ℚ) + ((1 : ℕ) : ℚ) + ((1 : ℕ) : ℚ) + ((2 : ℕ) : ℚ))) ^ 2 / ((((1 : ℕ) : ℚ) + ((2 : ℕ) : ℚ)) * (((2 : ℕ) : ℚ) + ((1 : ℕ) : ℚ)) / (((2 : ℕ) : ℚ) + ((1 : ℕ) : ℚ) + ((1 : ℕ) : ℚ) + ((2 : ℕ) : ℚ))) + (((2 : ℕ) : ℚ) - (((1 : ℕ) : ℚ) + ((2 : ℕ) : ℚ)) * (((1 : ℕ) : ℚ) + ((2 : ℕ) : ℚ)) / (((2 : ℕ) : ℚ) + ((1 : ℕ) : ℚ) + ((1 : ℕ) : ℚ) + ((2 : ℕ) : ℚ))) ^ 2 / ((((1 : ℕ) : ℚ) + ((2 : ℕ) : ℚ)) * (((1 : ℕ) : ℚ) + ((2 : ℕ) : ℚ)) / (((2 : ℕ) : ℚ) + ((1 : ℕ) : ℚ) + ((1 : ℕ) : ℚ) + ((2 : ℕ) : ℚ)))),
  (Fl.gtQ (if 0 < (1 : ℕ) * (1 : ℕ) then Fl.val (((2 : ℕ) * (2 : ℕ) : ℚ) / ((1 : ℕ) * (1 : ℕ))) else Fl.nan) 2 ∧ optGtR (some (Real.exp (Real.log (((2 : ℕ) * (2 : ℕ) : ℝ) / ((1 : ℕ) * (1 : ℕ))) - 1.96 * Real.sqrt (1 / ((2 : ℕ) : ℝ) + 1 / ((1 : ℕ) : ℝ) + 1 / ((1 : ℕ) : ℝ) + 1 / ((2 : ℕ) : ℝ))))) 1) ∨ (Fl.gtQ (Fl.val ((((2 : ℕ) : ℚ) / (((2 : ℕ) : ℚ) + ((1 : ℕ) : ℚ))) / (((1 : ℕ) : ℚ) / (((1 : ℕ) : ℚ) + ((2 : ℕ) : ℚ))))) 2 ∧ Fl.gtQ (Fl.val ((((2 : ℕ) : ℚ) - (((2 : ℕ) : ℚ) + ((1 : ℕ) : ℚ)) * (((2 : ℕ) : ℚ) + ((1 : ℕ) : ℚ)) / (((2 : ℕ) : ℚ) + ((1 : ℕ) : ℚ) + ((1 : ℕ) : ℚ) + ((2 : ℕ) : ℚ))) ^ 2 / ((((2 : ℕ) : ℚ) + ((1 : ℕ) : ℚ)) * (((2 : ℕ) : ℚ) + ((1 : ℕ) : ℚ)) / (((2 : ℕ) : ℚ) + ((1 : ℕ) : ℚ) + ((1 : ℕ) : ℚ) + ((2 : ℕ) : ℚ))) + (((1 : ℕ) : ℚ) - (((2 : ℕ) : ℚ) + ((1 : ℕ) : ℚ)) * (((1 : ℕ) : ℚ) + ((2 : ℕ) : ℚ)) / (((2 : ℕ) : ℚ) + ((1 : ℕ) : ℚ) + ((1 : ℕ) : ℚ) + ((2 : ℕ) : ℚ))) ^ 2 / ((((2 : ℕ) : ℚ) + ((1 : ℕ) : ℚ)) * (((1 : ℕ) : ℚ) + ((2 : ℕ) : ℚ)) / (((2 : ℕ) : ℚ) + ((1 : ℕ) : ℚ) + ((1 : ℕ) : ℚ) + ((2 : ℕ) : ℚ))) + (((1 : ℕ) : ℚ) - (((1 : ℕ) : ℚ) + ((2 : ℕ) : ℚ)) * (((2 : ℕ) : ℚ) + ((1 : ℕ) : ℚ)) / (((2 : ℕ) : ℚ) + ((1 : ℕ) : ℚ) + ((1 : ℕ) : ℚ) + ((2 : ℕ) : ℚ))) ^ 2 / ((((1 : ℕ) : ℚ) + ((2 : ℕ) : ℚ)) * (((2 : ℕ) : ℚ) + ((1 : ℕ) : ℚ)) / (((2 : ℕ) : ℚ) + ((1 : ℕ) : ℚ) + ((1 : ℕ) : ℚ) + ((2 : ℕ) : ℚ))) + (((2 : ℕ) : ℚ) - (((1 : ℕ) : ℚ) + ((2 : ℕ) : ℚ)) * (((1 : ℕ) : ℚ) + ((2 : ℕ) : ℚ)) / (((2 : ℕ) : ℚ) + ((1 : ℕ) : ℚ) + ((1 : ℕ) : ℚ) + ((2 : ℕ) : ℚ))) ^ 2 / ((((1 : ℕ) : ℚ) + ((2 : ℕ) : ℚ)) * (((1 : ℕ) : ℚ) + ((2 : ℕ) : ℚ)) / (((2 : ℕ) : ℚ) + ((1 : ℕ) : ℚ) + ((1 : ℕ) : ℚ) + ((2 : ℕ) : ℚ))))) 4 ∧ 3 ≤ (2 : ℕ))⟩

/-- A two-strata table whose first stratum yields no rows. -/
def dfC10 : List Record :=
  [⟨some "B", some "Y", some "s1"⟩, ⟨some "A", some "X", some "s2"⟩]

/-- Unfolding of `compute_ror` in the fully positive case. -/
lemma compute_ror_pos (a b c d : ℕ) (ha : 0 < a) (hb : 0 < b) (hc : 0 < c) (hd : 0 < d) :
    compute_ror a b c d =
      .ok ⟨.val ((a * d : ℚ) / (b * c)),
        some (Real.exp (Real.log ((a * d : ℝ) / (b * c)) -
          1.96 * Real.sqrt (1 / (a : ℝ) + 1 / (b : ℝ) + 1 / (c : ℝ) + 1 / (d : ℝ)))),
        some (Real.exp (Real.log ((a * d : ℝ) / (b * c)) +
          1.96 * Real.sqrt (1 / (a : ℝ) + 1 / (b : ℝ) + 1 / (c : ℝ) + 1 / (d : ℝ))))⟩ := by
  have h1 : ¬(b = 0 ∨ c = 0) := by omega
  have h2 : a ≠ 0 := by omega
  have h3 : ¬(a = 0 ∨ b = 0 ∨ c = 0 ∨ d = 0) := by omega
  have h4 : 0 < b * c := Nat.mul_pos hb hc
  simp [compute_ror, h1, h2, h3, h4]
  omega

/-- Positivity of the standard error when all four cells are positive. -/
lemma se_pos (a b c d : ℕ) (ha : 0 < a) :
    0 < Real.sqrt (1 / (a : ℝ) + 1 / (b : ℝ) + 1 / (c : ℝ) + 1 / (d : ℝ)) := by
  apply Real.sqrt_pos.2
  have h1 : 0 < 1 / (a : ℝ) := by positivity
  have h2 : 0 ≤ 1 / (b : ℝ) := by positivity
  have h3 : 0 ≤ 1 / (c : ℝ) := by positivity
  have h4 : 0 ≤ 1 / (d : ℝ) := by positivity
  linarith

/-- C1: edge cases and formula of compute_ror, with the CI straddling ROR. -/
theorem claim_c1 (a b c d : ℕ) :
    ((b = 0 ∨ c = 0) → compute_ror a b c d = .ok ⟨.nan, none, none⟩) ∧
    (b ≠ 0 → c ≠ 0 → a = 0 → compute_ror a b c d = .ok ⟨.val 0, some 0, some 0⟩) ∧
    (0 < a → 0 < b → 0 < c → 0 < d →
      compute_ror a b c d =
        .ok ⟨.val ((a * d : ℚ) / (b * c)),
          some (Real.exp (Real.log ((a * d : ℝ) / (b * c)) -
            1.96 * Real.sqrt (1 / (a : ℝ) + 1 / (b : ℝ) + 1 / (c : ℝ) + 1 / (d : ℝ)))),
          some (Real.exp (Real.log ((a * d : ℝ) / (b * c)) +
            1.96 * Real.sqrt (1 / (a : ℝ) + 1 / (b : ℝ) + 1 / (c : ℝ) + 1 / (d : ℝ))))⟩ ∧
      Real.exp (Real.log ((a * d : ℝ) / (b * c)) -
          1.96 * Real.sqrt (1 / (a : ℝ) + 1 / (b : ℝ) + 1 / (c : ℝ) + 1 / (d : ℝ))) <
        (a * d : ℝ) / (b * c) ∧
      (a * d : ℝ) / (b * c) <
        Real.exp (Real.log ((a * d : ℝ) / (b * c)) +
          1.96 * Real.sqrt (1 / (a : ℝ) + 1 / (b : ℝ) + 1 / (c : ℝ) + 1 / (d : ℝ)))) := by
  refine ⟨fun h => by simp [compute_ror, h], fun hb hc ha => by simp [compute_ror, ha, hb, hc],
    fun ha hb hc hd => ⟨compute_ror_pos a b c d ha hb hc hd, ?_, ?_⟩⟩
  all_goals
    have hR : 0 < (a * d : ℝ) / (b * c) := by positivity
    have hse := se_pos a b c d ha
    have h196 : (0 : ℝ) < 1.96 := by norm_num
  · calc Real.exp (Real.log ((a * d : ℝ) / (b * c)) -
          1.96 * Real.sqrt (1 / (a : ℝ) + 1 / (b : ℝ) + 1 / (c : ℝ) + 1 / (d : ℝ))) <
        Real.exp (Real.log ((a * d : ℝ) / (b * c))) := by
          apply Real.exp_lt_exp.2; nlinarith
      _ = (a * d : ℝ) / (b * c) := Real.exp_log hR
  · calc (a * d : ℝ) / (b * c) = Real.exp (Real.log ((a * d : ℝ) / (b * c))) :=
        (Real.exp_log hR).symm
      _ < _ := by apply Real.exp_lt_exp.2; nlinarith

/-- Witness for C1 at the concrete table a = b = c = d = 1. -/
theorem claim_c1_witness :
    compute_ror 1 1 1 1 =
      .ok ⟨.val (((1 : ℕ) * (1 : ℕ) : ℚ) / ((1 : ℕ) * (1 : ℕ))),
        some (Real.exp (Real.log (((1 : ℕ) * (1 : ℕ) : ℝ) / ((1 : ℕ) * (1 : ℕ))) -
          1.96 * Real.sqrt (1 / ((1 : ℕ) : ℝ) + 1 / ((1 : ℕ) : ℝ) + 1 / ((1 : ℕ) : ℝ) + 1 / ((1 : ℕ) : ℝ)))),
        some (Real.exp (Real.log (((1 : ℕ) * (1 : ℕ) : ℝ) / ((1 : ℕ) * (1 : ℕ))) +
          1.96 * Real.sqrt (1 / ((1 : ℕ) : ℝ) + 1 / ((1 : ℕ) : ℝ) + 1 / ((1 : ℕ) : ℝ) + 1 / ((1 : ℕ) : ℝ))))⟩ ∧
    Real.exp (Real.log (((1 : ℕ) * (1 : ℕ) : ℝ) / ((1 : ℕ) * (1 : ℕ))) -
        1.96 * Real.sqrt (1 / ((1 : ℕ) : ℝ) + 1 / ((1 : ℕ) : ℝ) + 1 / ((1 : ℕ) : ℝ) + 1 / ((1 : ℕ) : ℝ))) <
      ((1 : ℕ) * (1 : ℕ) : ℝ) / ((1 : ℕ) * (1 : ℕ)) ∧
    ((1 : ℕ) * (1 : ℕ) : ℝ) / ((1 : ℕ) * (1 : ℕ)) <
      Real.exp (Real.log (((1 : ℕ) * (1 : ℕ) : ℝ) / ((1 : ℕ) * (1 : ℕ))) +
        1.96 * Real.sqrt (1 / ((1 : ℕ) : ℝ) + 1 / ((1 : ℕ) : ℝ) + 1 / ((1 : ℕ) : ℝ) + 1 / ((1 : ℕ) : ℝ))) :=
  (claim_c1 1 1 1 1).2.2 Nat.one_pos Nat.one_pos Nat.one_pos Nat.one_pos

/-- The four cells partition the records with both cells present. -/
lemma contingency_sum (df : List Record) (dv ev : String) :
    (build_contingency_table df dv ev).1 + (build_contingency_table df dv ev).2.1 +
      (build_contingency_table df dv ev).2.2.1 + (build_contingency_table df dv ev).2.2.2 =
      df.countP (fun r => decide (r.drug.isSome = true ∧ r.event.isSome = true)) := by
  induction df with
  | nil => rfl
  | cons r rest ih =>
      simp only [build_contingency_table, List.countP_cons] at ih ⊢
      by_cases h1 : r.drug = some dv <;> by_cases h2 : r.event = some ev <;>
        by_cases h3 : r.drug.isSome = true <;> by_cases h4 : r.event.isSome = true <;>
          simp [h1, h2, h3, h4] at * <;> omega

/-- C2: the contingency-table cell characterisation, the partition
property, and the literal five-record example. -/
theorem claim_c2 :
    (∀ (df : List Record) (dv ev : String),
      build_contingency_table df dv ev =
        (df.countP (fun r => decide (r.drug = some dv ∧ r.event = some ev)),
         df.countP (fun r => decide (r.drug = some dv ∧ r.event ≠ some ev ∧ r.event.isSome = true)),
         df.countP (fun r => decide (r.drug ≠ some dv ∧ r.drug.isSome = true ∧ r.event = some ev)),
         df.countP (fun r => decide (r.drug ≠ some dv ∧ r.drug.isSome = true ∧
           r.event ≠ some ev ∧ r.event.isSome = true))) ∧
      (build_contingency_table df dv ev).1 + (build_contingency_table df dv ev).2.1 +
        (build_contingency_table df dv ev).2.2.1 + (build_contingency_table df dv ev).2.2.2 =
        df.countP (fun r => decide (r.drug.isSome = true ∧ r.event.isSome = true))) ∧
    build_contingency_table
      [⟨some "A", some "X", none⟩, ⟨some "A", some "X", none⟩, ⟨some "A", some "Y", none⟩,
       ⟨some "B", some "X", none⟩, ⟨some "B", some "Z", none⟩] "A" "X" = (2, 1, 1, 1) :=
  ⟨fun df dv ev => ⟨rfl, contingency_sum df dv ev⟩, by decide⟩

/-- C3 counterexample: with a = 1, b = 1, c = 0, d = 1 the Python code
raises ZeroDivisionError instead of returning a PRR value. -/
theorem claim_c3_cex : compute_prr 1 1 0 1 = .error () := by rfl

/-- C3 (amended): the NaN and zero edge cases, the PRR and chi-square
formulas when a > 0, c > 0 and b + d > 0, and the ZeroDivisionError
cases c = 0 (with d > 0) and b = d = 0. -/
theorem claim_c3 (a b c d : ℕ) :
    ((a + b = 0 ∨ c + d = 0) → compute_prr a b c d = .ok (.nan, .nan)) ∧
    (a + b ≠ 0 → c + d ≠ 0 → a = 0 → compute_prr a b c d = .ok (.val 0, .val 0)) ∧
    (0 < a → 0 < c → 0 < b + d →
      compute_prr a b c d =
        .ok (.val (((a : ℚ) / ((a : ℚ) + (b : ℚ))) / ((c : ℚ) / ((c : ℚ) + (d : ℚ)))),
          .val (((a : ℚ) - ((a : ℚ) + (b : ℚ)) * ((a : ℚ) + (c : ℚ)) /
                ((a : ℚ) + (b : ℚ) + (c : ℚ) + (d : ℚ))) ^ 2 /
              (((a : ℚ) + (b : ℚ)) * ((a : ℚ) + (c : ℚ)) /
                ((a : ℚ) + (b : ℚ) + (c : ℚ) + (d : ℚ))) +
            ((b : ℚ) - ((a : ℚ) + (b : ℚ)) * ((b : ℚ) + (d : ℚ)) /
                ((a : ℚ) + (b : ℚ) + (c : ℚ) + (d : ℚ))) ^ 2 /
              (((a : ℚ) + (b : ℚ)) * ((b : ℚ) + (d : ℚ)) /
                ((a : ℚ) + (b : ℚ) + (c : ℚ) + (d : ℚ))) +
            ((c : ℚ) - ((c : ℚ) + (d : ℚ)) * ((a : ℚ) + (c : ℚ)) /
                ((a : ℚ) + (b : ℚ) + (c : ℚ) + (d : ℚ))) ^ 2 /
              (((c : ℚ) + (d : ℚ)) * ((a : ℚ) + (c : ℚ)) /
                ((a : ℚ) + (b : ℚ) + (c : ℚ) + (d : ℚ))) +
            ((d : ℚ) - ((c : ℚ) + (d : ℚ)) * ((b : ℚ) + (d : ℚ)) /
                ((a : ℚ) + (b : ℚ) + (c : ℚ) + (d : ℚ))) ^ 2 /
              (((c : ℚ) + (d : ℚ)) * ((b : ℚ) + (d : ℚ)) /
                ((a : ℚ) + (b : ℚ) + (c : ℚ) + (d : ℚ)))))) ∧
    (0 < a → c = 0 → 0 < d → compute_prr a b c d = .error ()) ∧
    (0 < a → 0 < c → b = 0 → d = 0 → compute_prr a b c d = .error ()) := by
  refine ⟨fun h => by unfold compute_prr; rw [if_pos h],
    fun h1 h2 h3 => by unfold compute_prr; rw [if_neg (by omega), if_pos h3],
    fun ha hc hbd => ?_, fun ha hc hd => ?_, fun ha hc hb hd => ?_⟩
  · unfold compute_prr
    rw [if_neg (by omega), if_neg (by omega), if_neg (by omega), if_neg (by omega)]
  · unfold compute_prr
    rw [if_neg (by omega), if_neg (by omega), if_pos hc]
  · unfold compute_prr
    rw [if_neg (by omega), if_neg (by omega), if_neg (by omega), if_pos (by omega)]

/-- Witness for C3 at the concrete table a = b = c = d = 1. -/
theorem claim_c3_witness : compute_prr 1 1 1 1 = .ok (.val 1, .val 0) := by
  have h := (claim_c3 1 1 1 1).2.2.1 (by norm_num) (by norm_num) (by norm_num)
  norm_num at h
  exact h

/-- C7: with a = b = c = 1 and d = 0 Python raises ZeroDivisionError in
the standard-error sum, and compute_prr with b = d = 0 raises in the
chi-square sum; neither degenerate input is surfaced as NaN data. -/
theorem claim_c7 : compute_ror 1 1 1 0 = .error () ∧ compute_prr 2 0 1 0 = .error () :=
  ⟨by simp [compute_ror], by rfl⟩

/-- Everything a row produced by one pair evaluation satisfies. -/
lemma pairStep_ok_some {df : List Record} {dr ev : String} {mc mdr : ℕ} {row : Row}
    (h : pairStep df dr ev mc mdr = .ok (some row)) :
    row.drug = dr ∧ row.event = ev ∧
    build_contingency_table df dr ev = (row.a, row.b, row.c, row.d) ∧
    mc ≤ row.a ∧ mdr ≤ row.a + row.b ∧
    compute_ror row.a row.b row.c row.d = .ok ⟨row.ror, row.ror_ci_low, row.ror_ci_high⟩ ∧
    compute_prr row.a row.b row.c row.d = .ok (row.prr, row.chi2) ∧
    (row.is_signal ↔ (Fl.gtQ row.ror 2 ∧ optGtR row.ror_ci_low 1) ∨
      (Fl.gtQ row.prr 2 ∧ Fl.gtQ row.chi2 4 ∧ 3 ≤ row.a)) := by
  unfold pairStep at h
  split at h
  · exact absurd h (by simp)
  split at h
  · exact absurd h (by simp)
  rename_i h1 h2
  cases hr : compute_ror (build_contingency_table df dr ev).1
      (build_contingency_table df dr ev).2.1 (build_contingency_table df dr ev).2.2.1
      (build_contingency_table df dr ev).2.2.2 with
  | error e => rw [hr] at h; exact Except.noConfusion h
  | ok rr =>
      rw [hr] at h
      cases hp : compute_prr (build_contingency_table df dr ev).1
          (build_contingency_table df dr ev).2.1 (build_contingency_table df dr ev).2.2.1
          (build_contingency_table df dr ev).2.2.2 with
      | error e => rw [hp] at h; exact Except.noConfusion h
      | ok pc =>
          rw [hp] at h
          have h2 := Option.some.inj (Except.ok.inj h)
          subst h2
          refine ⟨rfl, rfl, rfl, by dsimp only; omega, by dsimp only; omega, ?_, ?_, Iff.rfl⟩
          · exact hr
          · exact hp

/-- Rows emitted by the event loop come from single pair evaluations. -/
lemma eventsLoop_mem {df : List Record} {dr : String} {evs : List String} {mc mdr : ℕ}
    {rows : List Row} {row : Row} (h : eventsLoop df dr evs mc mdr = .ok rows)
    (hm : row ∈ rows) : ∃ ev ∈ evs, pairStep df dr ev mc mdr = .ok (some row) := by
  induction evs generalizing rows with
  | nil =>
      unfold eventsLoop at h
      cases Except.ok.inj h
      cases hm
  | cons e rest ih =>
      unfold eventsLoop at h
      cases hp : pairStep df dr e mc mdr with
      | error err => rw [hp] at h; exact Except.noConfusion h
      | ok r =>
          rw [hp] at h
          cases hr : eventsLoop df dr rest mc mdr with
          | error err => rw [hr] at h; exact Except.noConfusion h
          | ok rs =>
              rw [hr] at h
              cases Except.ok.inj h
              rcases List.mem_append.1 hm with hm1 | hm2
              · cases r with
                | none => cases hm1
                | some r0 =>
                    rcases List.mem_singleton.1 hm1 with rfl
                    exact ⟨e, List.mem_cons_self e rest, hp⟩
              · obtain ⟨ev, hev, hps⟩ := ih hr hm2
                exact ⟨ev, List.mem_cons_of_mem e hev, hps⟩

/-- Rows emitted by the drug loop come from drugs that pass the
minimum-report fast path, via the event loop. -/
lemma drugsLoop_mem {df : List Record} {drugs evs : List String} {mc mdr : ℕ}
    {rows : List Row} {row : Row} (h : drugsLoop df drugs evs mc mdr = .ok rows)
    (hm : row ∈ rows) :
    ∃ dr ∈ drugs, mdr ≤ df.countP (fun r => decide (r.drug = some dr)) ∧
      ∃ ev ∈ evs, pairStep df dr ev mc mdr = .ok (some row) := by
  induction drugs generalizing rows with
  | nil =>
      unfold drugsLoop at h
      cases Except.ok.inj h
      cases hm
  | cons dr rest ih =>
      unfold drugsLoop at h
      split at h
      · obtain ⟨dr2, hdr2, hcnt, hev⟩ := ih h hm
        exact ⟨dr2, List.mem_cons_of_mem dr hdr2, hcnt, hev⟩
      · rename_i hcnt
        cases he : eventsLoop df dr evs mc mdr with
        | error err => rw [he] at h; exact Except.noConfusion h
        | ok rs =>
            rw [he] at h
            cases hrest : drugsLoop df rest evs mc mdr with
            | error err => rw [hrest] at h; exact Except.noConfusion h
            | ok rs2 =>
                rw [hrest] at h
                cases Except.ok.inj h
                rcases List.mem_append.1 hm with hm1 | hm2
                · obtain ⟨ev, hev, hps⟩ := eventsLoop_mem he hm1
                  exact ⟨dr, List.mem_cons_self dr rest, by omega, ev, hev, hps⟩
                · obtain ⟨dr2, hdr2, hcnt2, hev⟩ := ih hrest hm2
                  exact ⟨dr2, List.mem_cons_of_mem dr hdr2, hcnt2, hev⟩

/-- Every row of the analysis output: its provenance and invariants. -/
lemma run_mem {df : List Record} {dl el : List String} {mc mdr : ℕ}
    {rows : List Row} {row : Row}
    (h : run_disproportionality_analysis df dl el mc mdr = .ok rows) (hm : row ∈ rows) :
    ∃ dr ∈ dl, mdr ≤ df.countP (fun r => decide (r.drug = some dr)) ∧
      ∃ ev ∈ el, row.drug = dr ∧ row.event = ev ∧
        build_contingency_table df dr ev = (row.a, row.b, row.c, row.d) ∧
        mc ≤ row.a ∧ mdr ≤ row.a + row.b ∧
        compute_ror row.a row.b row.c row.d = .ok ⟨row.ror, row.ror_ci_low, row.ror_ci_high⟩ ∧
        compute_prr row.a row.b row.c row.d = .ok (row.prr, row.chi2) ∧
        (row.is_signal ↔ (Fl.gtQ row.ror 2 ∧ optGtR row.ror_ci_low 1) ∨
          (Fl.gtQ row.prr 2 ∧ Fl.gtQ row.chi2 4 ∧ 3 ≤ row.a)) := by
  unfold run_disproportionality_analysis at h
  cases hd : drugsLoop df dl el mc mdr with
  | error err => rw [hd] at h; exact Except.noConfusion h
  | ok rows0 =>
      rw [hd] at h
      cases Except.ok.inj h
      have hm0 : row ∈ rows0 := List.mem_mergeSort.1 hm
      obtain ⟨dr, hdr, hcnt, ev, hev, hps⟩ := drugsLoop_mem hd hm0
      obtain ⟨e1, e2, e3, e4, e5, e6, e7, e8⟩ := pairStep_ok_some hps
      exact ⟨dr, hdr, hcnt, ev, hev, e1, e2, e3, e4, e5, e6, e7, e8⟩

/-- C5: a result row is a signal exactly when the ROR rule or the PRR
rule fires, with the fixed thresholds 2.0, 1.0, 2.0, 4.0 and 3. -/
theorem claim_c5 (df : List Record) (dl el : List String) (mc mdr : ℕ)
    (rows : List Row) (row : Row)
    (h : run_disproportionality_analysis df dl el mc mdr = .ok rows) (hm : row ∈ rows) :
    row.is_signal ↔ (Fl.gtQ row.ror 2 ∧ optGtR row.ror_ci_low 1) ∨
      (Fl.gtQ row.prr 2 ∧ Fl.gtQ row.chi2 4 ∧ 3 ≤ row.a) := by
  obtain ⟨dr, _, _, ev, _, _, _, _, _, _, _, _, hiff⟩ := run_mem h hm
  exact hiff

/-- C6: every emitted row passed the drug fast path and both
pair-granularity minimum thresholds. -/
theorem claim_c6 (df : List Record) (dl el : List String) (mc mdr : ℕ)
    (rows : List Row) (row : Row)
    (h : run_disproportionality_analysis df dl el mc mdr = .ok rows) (hm : row ∈ rows) :
    mdr ≤ df.countP (fun r => decide (r.drug = some row.drug)) ∧
    (build_contingency_table df row.drug row.event).1 = row.a ∧
    (build_contingency_table df row.drug row.event).2.1 = row.b ∧
    mc ≤ row.a ∧ mdr ≤ row.a + row.b := by
  obtain ⟨dr, _, hcnt, ev, _, hdrug, hevent, hbuild, hmc, hmdr, _⟩ := run_mem h hm
  subst hdrug
  subst hevent
  rw [hbuild]
  exact ⟨hcnt, rfl, rfl, hmc, hmdr⟩


/-- Concrete run of the orchestrator on `dfOne`. -/
lemma runOne : run_disproportionality_analysis dfOne ["A"] ["X"] 1 1 = .ok [rowOne] := by
  have h1 : drugsLoop dfOne ["A"] ["X"] 1 1 = .ok [rowOne] := rfl
  unfold run_disproportionality_analysis
  rw [h1]
  show Except.ok ([rowOne].mergeSort rowLe) = _
  rw [List.mergeSort_singleton]

/-- Witness for C5 on the concrete table `dfOne`. -/
theorem claim_c5_witness :
    run_disproportionality_analysis dfOne ["A"] ["X"] 1 1 = .ok [rowOne] ∧
    (rowOne.is_signal ↔ (Fl.gtQ rowOne.ror 2 ∧ optGtR rowOne.ror_ci_low 1) ∨
      (Fl.gtQ rowOne.prr 2 ∧ Fl.gtQ rowOne.chi2 4 ∧ 3 ≤ rowOne.a)) :=
  ⟨runOne, claim_c5 dfOne ["A"] ["X"] 1 1 [rowOne] rowOne runOne (List.mem_singleton.2 rfl)⟩

/-- Witness for C6 on the concrete table `dfOne`. -/
theorem claim_c6_witness :
    run_disproportionality_analysis dfOne ["A"] ["X"] 1 1 = .ok [rowOne] ∧
    1 ≤ dfOne.countP (fun r => decide (r.drug = some rowOne.drug)) ∧
    (build_contingency_table dfOne rowOne.drug rowOne.event).1 = rowOne.a ∧
    (build_contingency_table dfOne rowOne.drug rowOne.event).2.1 = rowOne.b ∧
    1 ≤ rowOne.a ∧ 1 ≤ rowOne.a + rowOne.b :=
  ⟨runOne, claim_c6 dfOne ["A"] ["X"] 1 1 [rowOne] rowOne runOne (List.mem_singleton.2 rfl)⟩

/-- The ROR value of an ok result is NaN exactly when b or c is zero. -/
lemma compute_ror_nan_iff {a b c d : ℕ} {res : RorResult}
    (h : compute_ror a b c d = .ok res) : res.ror = Fl.nan ↔ (b = 0 ∨ c = 0) := by
  unfold compute_ror at h
  split at h
  · rename_i hbc
    cases Except.ok.inj h
    simpa using hbc
  split at h
  · rename_i hbc ha
    cases Except.ok.inj h
    simpa using hbc
  split at h
  · exact Except.noConfusion h
  · rename_i hbc ha habcd
    cases Except.ok.inj h
    have hb : 0 < b := by omega
    have hc : 0 < c := by omega
    have hpos : 0 < b * c := Nat.mul_pos hb hc
    simp only [hpos, if_true]
    simp
    omega


/-- Concrete run of the orchestrator on `dfTen` at the defaults 5, 10. -/
lemma runTen : run_disproportionality_analysis dfTen ["A"] ["X"] 5 10 = .ok [rowTen] := by
  have h1 : drugsLoop dfTen ["A"] ["X"] 5 10 = .ok [rowTen] := rfl
  unfold run_disproportionality_analysis
  rw [h1]
  show Except.ok ([rowTen].mergeSort rowLe) = _
  rw [List.mergeSort_singleton]

/-- C8 counterexample: at the default thresholds a row whose ror is NaN
appears in the result table (its b and c cells are zero). -/
theorem claim_c8_cex :
    run_disproportionality_analysis dfTen ["A"] ["X"] 5 10 = .ok [rowTen] ∧
    rowTen ∈ [rowTen] ∧ rowTen.ror = Fl.nan :=
  ⟨runTen, List.mem_singleton.2 rfl, rfl⟩

/-- C8 (amended): the ror of a result row is NaN exactly when its b or c
cell is zero; the minimum-count filters do not exclude such rows. -/
theorem claim_c8 (df : List Record) (dl el : List String) (mc mdr : ℕ)
    (rows : List Row) (row : Row)
    (h : run_disproportionality_analysis df dl el mc mdr = .ok rows) (hm : row ∈ rows) :
    row.ror = Fl.nan ↔ (row.b = 0 ∨ row.c = 0) := by
  obtain ⟨dr, _, _, ev, _, _, _, _, _, _, hror, _, _⟩ := run_mem h hm
  exact compute_ror_nan_iff hror

/-- Witness for C8 on the concrete table `dfTen`. -/
theorem claim_c8_witness :
    run_disproportionality_analysis dfTen ["A"] ["X"] 5 10 = .ok [rowTen] ∧
    (rowTen.ror = Fl.nan ↔ (rowTen.b = 0 ∨ rowTen.c = 0)) :=
  ⟨runTen, claim_c8 dfTen ["A"] ["X"] 5 10 [rowTen] rowTen runTen (List.mem_singleton.2 rfl)⟩


/-- Transitivity of the sort comparison. -/
lemma rowLe_trans (x y z : Row) (h1 : rowLe x y) (h2 : rowLe y z) : rowLe x z := by
  cases hx : x.ror <;> cases hy : y.ror <;> cases hz : z.ror <;> simp_all [rowLe, rorLe]
  exact le_trans h2 h1

/-- Totality of the sort comparison. -/
lemma rowLe_total (x y : Row) : rowLe x y || rowLe y x := by
  cases hx : x.ror <;> cases hy : y.ror <;> simp_all [rowLe, rorLe]
  exact le_total _ _

/-- C9 (amended): the table returned by run_disproportionality_analysis
is sorted descending by ror (values descending, NaN rows last). -/
theorem claim_c9 (df : List Record) (dl el : List String) (mc mdr : ℕ)
    (rows : List Row)
    (h : run_disproportionality_analysis df dl el mc mdr = .ok rows) :
    rorDescending (rows.map Row.ror) := by
  unfold run_disproportionality_analysis at h
  cases hd : drugsLoop df dl el mc mdr with
  | error err => rw [hd] at h; exact Except.noConfusion h
  | ok rows0 =>
      rw [hd] at h
      cases Except.ok.inj h
      have hs : (rows0.mergeSort rowLe).Pairwise (fun a b => rowLe a b = true) :=
        List.sorted_mergeSort rowLe_trans (fun a b => rowLe_total a b) rows0
      exact List.pairwise_map.2 hs

/-- Witness for C9 on the concrete table `dfOne`. -/
theorem claim_c9_witness :
    run_disproportionality_analysis dfOne ["A"] ["X"] 1 1 = .ok [rowOne] ∧
    rorDescending ([rowOne].map Row.ror) :=
  ⟨runOne, claim_c9 dfOne ["A"] ["X"] 1 1 [rowOne] runOne⟩



/-- Concrete run of the orchestrator on stratum s1 of `dfStrat`. -/
lemma runStratS1 : run_disproportionality_analysis (stratumDf dfStrat "s1")
    ["A"] ["X"] 0 1 = .ok [rowS1] := by
  have hd : drugsLoop (stratumDf dfStrat "s1") ["A"] ["X"] 0 1 = .ok [rowS1] := rfl
  unfold run_disproportionality_analysis
  rw [hd]
  show Except.ok ([rowS1].mergeSort rowLe) = _
  rw [List.mergeSort_singleton]

/-- Concrete run of the orchestrator on stratum s2 of `dfStrat`. -/
lemma runStratS2 : run_disproportionality_analysis (stratumDf dfStrat "s2")
    ["A"] ["X"] 0 1 = .ok [rowS2] := by
  have hd : drugsLoop (stratumDf dfStrat "s2") ["A"] ["X"] 0 1 = .ok [rowS2] := rfl
  unfold run_disproportionality_analysis
  rw [hd]
  show Except.ok ([rowS2].mergeSort rowLe) = _
  rw [List.mergeSort_singleton]

/-- Concrete run of the stratified analysis on `dfStrat`. -/
lemma runStratCex : run_stratified_analysis dfStrat ["A"] ["X"] 0 1 =
    .ok [(rowS1, "s1"), (rowS2, "s2")] := by
  have hstrata : uniqueFirst (dfStrat.filterMap Record.stratum) = ["s1", "s2"] := by
    simp [dfStrat, uniqueFirst]
  unfold run_stratified_analysis
  rw [hstrata]
  simp only [strataLoop]
  rw [runStratS1, runStratS2]
  rfl

/-- C9 counterexample: the concatenated stratified table has ror column
[0, 4], which is not descending. -/
theorem claim_c9_cex :
    run_stratified_analysis dfStrat ["A"] ["X"] 0 1 = .ok [(rowS1, "s1"), (rowS2, "s2")] ∧
    ¬ rorDescending ([(rowS1, "s1"), (rowS2, "s2")].map (fun p => p.1.ror)) := by
  refine ⟨runStratCex, ?_⟩
  intro hsort
  have h := List.rel_of_pairwise_cons hsort (List.mem_singleton.2 rfl)
  simp [rowS1, rowS2, rorLe] at h
  norm_num at h

/-- Membership is preserved by uniqueFirst. -/
lemma mem_uniqueFirst (x : String) (l : List String) : x ∈ uniqueFirst l ↔ x ∈ l := by
  induction l using uniqueFirst.induct with
  | case1 => simp [uniqueFirst]
  | case2 s l ih =>
      rw [show uniqueFirst (s :: l) = s :: uniqueFirst (l.filter fun y => decide (y ≠ s))
        from by simp [uniqueFirst]]
      simp only [List.mem_cons, ih, List.mem_filter, decide_eq_true_eq]
      by_cases hx : x = s
      · simp [hx]
      · simp [hx]

/-- uniqueFirst returns a duplicate-free list. -/
lemma nodup_uniqueFirst (l : List String) : (uniqueFirst l).Nodup := by
  induction l using uniqueFirst.induct with
  | case1 => simp [uniqueFirst]
  | case2 s l ih =>
      rw [show uniqueFirst (s :: l) = s :: uniqueFirst (l.filter fun y => decide (y ≠ s))
        from by simp [uniqueFirst]]
      refine List.Pairwise.cons (fun y hy => ?_) ih
      have := (mem_uniqueFirst y _).1 hy
      rcases List.mem_filter.1 this with ⟨-, hne⟩
      simp only [decide_eq_true_eq] at hne
      exact fun h => hne (h ▸ rfl)

/-- Counting a disjunction of pointwise-disjoint predicates adds up. -/
lemma countP_disjoint_or {α : Type} (l : List α) (p q : α → Bool)
    (h : ∀ a ∈ l, ¬(p a = true ∧ q a = true)) :
    l.countP (fun a => p a || q a) = l.countP p + l.countP q := by
  induction l with
  | nil => rfl
  | cons a t ih =>
      simp only [List.countP_cons]
      rw [ih (fun b hb => h b (List.mem_cons_of_mem a hb))]
      have ha := h a (List.mem_cons_self a t)
      by_cases hp : p a = true <;> by_cases hq : q a = true <;> simp [hp, hq] at * <;> omega

/-- Summing per-stratum counts over distinct stratum values counts each
record at most once. -/
lemma sum_strata_countP (df : List Record) (p : Record → Bool) :
    ∀ (S : List String), S.Nodup →
      (S.map (fun s => df.countP (fun r => p r && decide (r.stratum = some s)))).sum =
        df.countP (fun r => p r && decide (∃ s ∈ S, r.stratum = some s)) := by
  intro S
  induction S with
  | nil =>
      intro _
      simp [List.countP_eq_zero]
  | cons s S' ih =>
      intro hnd
      rcases List.nodup_cons.1 hnd with ⟨hs, hnd'⟩
      simp only [List.map_cons, List.sum_cons, ih hnd']
      rw [show df.countP (fun r => p r && decide (∃ t ∈ s :: S', r.stratum = some t)) =
          df.countP (fun r => (p r && decide (r.stratum = some s)) ||
            (p r && decide (∃ t ∈ S', r.stratum = some t))) from
        List.countP_congr (fun r _ => by
          by_cases h1 : r.stratum = some s <;> by_cases h2 : ∃ t ∈ S', r.stratum = some t <;>
            simp [h1, h2] <;> tauto)]
      rw [countP_disjoint_or]
      intro r _ hcon
      rcases hcon with ⟨hp1, hp2⟩
      simp only [Bool.and_eq_true, decide_eq_true_eq] at hp1 hp2
      obtain ⟨t, htS, ht⟩ := hp2.2
      rw [hp1.2] at ht
      exact hs (Option.some.inj ht ▸ htS)

/-- C4: strata are pairwise disjoint, cover exactly the records with a
non-missing stratum value, each stratum is analysed independently by the
orchestrator at the stratified defaults 3 and 5, and per-stratum a-cells
sum to at most the global a-cell. -/
theorem claim_c4 (df : List Record) (dl el : List String) (mc mdr : ℕ) :
    (∀ s t : String, s ≠ t → ∀ r : Record, r ∈ stratumDf df s → r ∉ stratumDf df t) ∧
    (∀ r ∈ df, (r.stratum.isSome = true ↔
      ∃ s ∈ uniqueFirst (df.filterMap Record.stratum), r ∈ stratumDf df s)) ∧
    run_stratified_analysis_default df dl el =
      strataLoop df dl el 3 5 (uniqueFirst (df.filterMap Record.stratum)) ∧
    (∀ (s : String) (rest : List String) (out : List (Row × String)),
      strataLoop df dl el mc mdr (s :: rest) = .ok out →
      ∃ res rest2, run_disproportionality_analysis (stratumDf df s) dl el mc mdr = .ok res ∧
        strataLoop df dl el mc mdr rest = .ok rest2 ∧
        out = if 0 < res.length then res.map (fun row => (row, s)) ++ rest2 else rest2) ∧
    (∀ dv ev : String,
      ((uniqueFirst (df.filterMap Record.stratum)).map
        (fun s => (build_contingency_table (stratumDf df s) dv ev).1)).sum ≤
        (build_contingency_table df dv ev).1) := by
  refine ⟨?_, ?_, rfl, ?_, ?_⟩
  · intro s t hst r hrs hrt
    rcases List.mem_filter.1 hrs with ⟨-, hs⟩
    rcases List.mem_filter.1 hrt with ⟨-, ht⟩
    simp only [decide_eq_true_eq] at hs ht
    exact hst (Option.some.inj (hs ▸ ht))
  · intro r hr
    constructor
    · intro hsome
      rcases Option.isSome_iff_exists.1 hsome with ⟨v, hv⟩
      refine ⟨v, (mem_uniqueFirst v _).2 (List.mem_filterMap.2 ⟨r, hr, hv⟩), ?_⟩
      exact List.mem_filter.2 ⟨hr, by simp [hv]⟩
    · rintro ⟨s, -, hmem⟩
      rcases List.mem_filter.1 hmem with ⟨-, hs⟩
      simp only [decide_eq_true_eq] at hs
      simp [hs]
  · intro s rest out h
    unfold strataLoop at h
    cases hres : run_disproportionality_analysis (stratumDf df s) dl el mc mdr with
    | error err => rw [hres] at h; exact Except.noConfusion h
    | ok res =>
        rw [hres] at h
        cases hrest : strataLoop df dl el mc mdr rest with
        | error err => rw [hrest] at h; exact Except.noConfusion h
        | ok rest2 =>
            rw [hrest] at h
            refine ⟨res, rest2, rfl, rfl, ?_⟩
            by_cases hlen : 0 < res.length
            · rw [if_pos hlen]
              rw [show (do
                  let res2 ← (Except.ok res : Except Unit (List Row))
                  let rest3 ← (Except.ok rest2 : Except Unit (List (Row × String)))
                  if 0 < res2.length then
                    Except.ok (res2.map (fun row => (row, s)) ++ rest3)
                  else Except.ok rest3) =
                (if 0 < res.length then
                    Except.ok (res.map (fun row => (row, s)) ++ rest2)
                  else Except.ok rest2) from rfl, if_pos hlen] at h
              exact (Except.ok.inj h).symm
            · rw [if_neg hlen]
              rw [show (do
                  let res2 ← (Except.ok res : Except Unit (List Row))
                  let rest3 ← (Except.ok rest2 : Except Unit (List (Row × String)))
                  if 0 < res2.length then
                    Except.ok (res2.map (fun row => (row, s)) ++ rest3)
                  else Except.ok rest3) =
                (if 0 < res.length then
                    Except.ok (res.map (fun row => (row, s)) ++ rest2)
                  else Except.ok rest2) from rfl, if_neg hlen] at h
              exact (Except.ok.inj h).symm
  · intro dv ev
    have hform : ∀ s : String, (build_contingency_table (stratumDf df s) dv ev).1 =
        df.countP (fun r =>
          (decide (r.drug = some dv ∧ r.event = some ev)) && decide (r.stratum = some s)) := by
      intro s
      exact List.countP_filter _ _ df
    calc ((uniqueFirst (df.filterMap Record.stratum)).map
          (fun s => (build_contingency_table (stratumDf df s) dv ev).1)).sum
        = ((uniqueFirst (df.filterMap Record.stratum)).map
          (fun s => df.countP (fun r =>
            (decide (r.drug = some dv ∧ r.event = some ev)) &&
              decide (r.stratum = some s)))).sum := by
          congr 1
          exact List.map_congr_left (fun s _ => hform s)
      _ = df.countP (fun r => (decide (r.drug = some dv ∧ r.event = some ev)) &&
            decide (∃ s ∈ uniqueFirst (df.filterMap Record.stratum), r.stratum = some s)) :=
          sum_strata_countP df _ _ (nodup_uniqueFirst _)
      _ ≤ (build_contingency_table df dv ev).1 :=
          List.countP_mono_left (fun r _ h => by
            simp only [Bool.and_eq_true] at h
            exact h.1)

/-- Witness for C4: concrete disjointness of two strata of `dfStrat`. -/
theorem claim_c4_witness :
    (⟨some "A", some "Y", some "s1"⟩ : Record) ∈ stratumDf dfStrat "s1" ∧
    (⟨some "A", some "Y", some "s1"⟩ : Record) ∉ stratumDf dfStrat "s2" :=
  ⟨by decide, (claim_c4 dfStrat ["A"] ["X"] 0 1).1 "s1" "s2" (by decide) _ (by decide)⟩

/-- Provenance of rows of the stratum loop. -/
lemma strataLoop_mem {df : List Record} {dl el : List String} {mc mdr : ℕ} :
    ∀ {S : List String} {out : List (Row × String)} {p : Row × String},
      strataLoop df dl el mc mdr S = .ok out → p ∈ out →
      ∃ s ∈ S, p.2 = s ∧ ∃ res,
        run_disproportionality_analysis (stratumDf df s) dl el mc mdr = .ok res ∧
          p.1 ∈ res := by
  intro S
  induction S with
  | nil =>
      intro out p h hp
      unfold strataLoop at h
      cases Except.ok.inj h
      cases hp
  | cons s rest ih =>
      intro out p h hp
      unfold strataLoop at h
      cases hres : run_disproportionality_analysis (stratumDf df s) dl el mc mdr with
      | error err => rw [hres] at h; exact Except.noConfusion h
      | ok res =>
          rw [hres] at h
          cases hrest : strataLoop df dl el mc mdr rest with
          | error err => rw [hrest] at h; exact Except.noConfusion h
          | ok rest2 =>
              rw [hrest] at h
              rw [show (do
                  let res2 ← (Except.ok res : Except Unit (List Row))
                  let rest3 ← (Except.ok rest2 : Except Unit (List (Row × String)))
                  if 0 < res2.length then
                    Except.ok (res2.map (fun row => (row, s)) ++ rest3)
                  else Except.ok rest3) =
                (if 0 < res.length then
                    Except.ok (res.map (fun row => (row, s)) ++ rest2)
                  else Except.ok rest2) from rfl] at h
              split at h
              · cases Except.ok.inj h
                rcases List.mem_append.1 hp with hp1 | hp2
                · rcases List.mem_map.1 hp1 with ⟨row, hrow, hrw⟩
                  refine ⟨s, List.mem_cons_self s rest, ?_, res, hres, ?_⟩
                  · rw [← hrw]
                  · rw [show p.1 = row from by rw [← hrw]]
                    exact hrow
                · obtain ⟨t, ht, h2, res2, hres2, hmem⟩ := ih hrest hp2
                  exact ⟨t, List.mem_cons_of_mem s ht, h2, res2, hres2, hmem⟩
              · cases Except.ok.inj h
                obtain ⟨t, ht, h2, res2, hres2, hmem⟩ := ih hrest hp
                exact ⟨t, List.mem_cons_of_mem s ht, h2, res2, hres2, hmem⟩

/-- C10: a stratum whose analysis yields zero rows contributes no row
tagged with that stratum value to the stratified output. -/
theorem claim_c10 (df : List Record) (dl el : List String) (mc mdr : ℕ)
    (s : String) (out : List (Row × String))
    (h : run_stratified_analysis df dl el mc mdr = .ok out)
    (hempty : run_disproportionality_analysis (stratumDf df s) dl el mc mdr = .ok []) :
    out.countP (fun p => decide (p.2 = s)) = 0 := by
  rw [List.countP_eq_zero]
  intro p hp
  simp only [decide_eq_true_eq]
  intro hps
  unfold run_stratified_analysis at h
  obtain ⟨t, -, hpt, res, hres, hmem⟩ := strataLoop_mem h hp
  rw [hps] at hpt
  rw [hpt] at hempty
  rw [hempty] at hres
  cases Except.ok.inj hres
  cases hmem


/-- Stratum s1 of `dfC10` yields an empty result table. -/
lemma runC10s1 : run_disproportionality_analysis (stratumDf dfC10 "s1")
    ["A"] ["X"] 1 1 = .ok [] := by
  have hd : drugsLoop (stratumDf dfC10 "s1") ["A"] ["X"] 1 1 = .ok [] := rfl
  unfold run_disproportionality_analysis
  rw [hd]
  show Except.ok ([].mergeSort rowLe) = _
  rw [List.mergeSort_nil]

/-- Concrete run of the stratified analysis on `dfC10`. -/
lemma runC10 : run_stratified_analysis dfC10 ["A"] ["X"] 1 1 = .ok [(rowOne, "s2")] := by
  have hstrata : uniqueFirst (dfC10.filterMap Record.stratum) = ["s1", "s2"] := by
    simp [dfC10, uniqueFirst]
  have h2 : run_disproportionality_analysis (stratumDf dfC10 "s2")
      ["A"] ["X"] 1 1 = .ok [rowOne] := by
    have hd : drugsLoop (stratumDf dfC10 "s2") ["A"] ["X"] 1 1 = .ok [rowOne] := rfl
    unfold run_disproportionality_analysis
    rw [hd]
    show Except.ok ([rowOne].mergeSort rowLe) = _
    rw [List.mergeSort_singleton]
  unfold run_stratified_analysis
  rw [hstrata]
  simp only [strataLoop]
  rw [runC10s1, h2]
  rfl

/-- Witness for C10 on the concrete table `dfC10`. -/
theorem claim_c10_witness :
    run_stratified_analysis dfC10 ["A"] ["X"] 1 1 = .ok [(rowOne, "s2")] ∧
    run_disproportionality_analysis (stratumDf dfC10 "s1") ["A"] ["X"] 1 1 = .ok [] ∧
    ([(rowOne, "s2")] : List (Row × String)).countP (fun p => decide (p.2 = "s1")) = 0 :=
  ⟨runC10, runC10s1, claim_c10 dfC10 ["A"] ["X"] 1 1 "s1" [(rowOne, "s2")] runC10 runC10s1⟩
